import Mathlib

/-!
Shallow embedding of the video-analysis core of the auto_briefing_ai
repository, translated from src/app/services/gemini_service.py
(GeminiService.analyze_video) and src/app/models/video_analysis_model.py
(VideoAnalysis and its sub-models).

Naming convention: definitions keep the Spanish identifiers of the source
(required_fields, field_mapping, titulo_portada, "No especificado", the
three default promotional hashtags).  The specification document refers to
the same entities through English labels: original_description stands for
descripcion_original, cover_title for titulo_portada, video_idea for
idea_video, hook_description for gancho_video, expectation_payoff for
expectativas_cumplidas, caption for caption_video, actions for acciones,
dialogue for dialogo, music for musica, and the literal "Not specified"
stands for the source literal "No especificado".

External collaborators are modelled as oracles: the remote Gemini call is a
function from the attempt index to its result, and the Python json.loads
library routine is a function from the extracted substring to either a
parsed object or a parse error.  Python dicts are modelled as association
lists with first-occurrence lookup semantics (a real dict never holds a
duplicate key).
-/

set_option maxRecDepth 40000

namespace AutoBriefing

/-- JSON values as produced by json.loads: strings, integers, booleans,
null, arrays and objects.  Numeric literals other than integers do not
occur in any property below, so numbers are carried as Int. -/
inductive JVal where
  | str (s : String)
  | num (n : Int)
  | bool (b : Bool)
  | null
  | arr (xs : List JVal)
  | obj (fields : List (String × JVal))

/-- A parsed JSON object (a Python dict): an association list of fields. -/
abbrev Obj := List (String × JVal)

/-- Python dict lookup d[k]: value of the first (hence, in a real dict,
only) entry with key k. -/
def dGet : Obj → String → Option JVal
  | [], _ => none
  | (k1, v) :: rest, k => if k1 = k then some v else dGet rest k

/-- Python membership test: k in d. -/
def dContains (d : Obj) (k : String) : Bool :=
  (dGet d k).isSome

/-- Python dict assignment d[k] = v: update the existing entry in place,
or append a new entry at the end (insertion order semantics). -/
def dSet : Obj → String → JVal → Obj
  | [], k, v => [(k, v)]
  | (k1, v1) :: rest, k, v =>
      if k1 = k then (k1, v) :: rest else (k1, v1) :: dSet rest k v

/-- Python d.pop(k) restricted to its removal effect: drop the first
(hence, in a real dict, only) entry with key k. -/
def dPop : Obj → String → Obj
  | [], _ => []
  | (k1, v1) :: rest, k =>
      if k1 = k then rest else (k1, v1) :: dPop rest k

/-- The keys of an object, in order. -/
def dKeys (d : Obj) : List String :=
  d.map Prod.fst

/-- gemini_service.py lines 200-201: the required_fields list checked by
the sweep.  Note that "hashtags" is not in this list. -/
def required_fields : List String :=
  ["descripcion_original", "titulo_portada", "idea_video", "gancho_video",
   "acciones", "dialogo", "musica", "expectativas_cumplidas", "caption_video"]

/-- gemini_service.py lines 204-208: the fixed alias rename table,
iterated in dict insertion order. -/
def field_mapping : List (String × String) :=
  [("titulo", "titulo_portada"),
   ("gancho_inicial", "gancho_video"),
   ("caption", "caption_video")]

/-- gemini_service.py lines 222 and 236-238: the fixed default set of 3
promotional hashtags. -/
def default_hashtags : List String :=
  ["#BarentBarefoot", "#EntrenamientoNatural", "#CuerpoFuerte"]

/-- The default hashtag set as a JSON value. -/
def defaultHashtagsJ : JVal :=
  JVal.arr (default_hashtags.map JVal.str)

/-- gemini_service.py lines 220-224: the value the required-field sweep
assigns to a missing field. -/
def fillVal (f : String) : JVal :=
  if f = "hashtags" then defaultHashtagsJ else JVal.str "No especificado"

/-- gemini_service.py lines 211-213, one iteration of the alias loop:
if old_field in json_response and new_field not in json_response, then
json_response[new_field] = json_response.pop(old_field). -/
def applyOne (old new : String) (j : Obj) : Obj :=
  if dContains j old && !(dContains j new) then
    dSet (dPop j old) new ((dGet j old).getD JVal.null)
  else j

/-- gemini_service.py lines 211-213: the alias loop over field_mapping. -/
def applyMapping (j : Obj) : Obj :=
  field_mapping.foldl (fun d p => applyOne p.1 p.2 d) j

/-- gemini_service.py lines 216-224: compute the missing required fields,
then assign each its default value. -/
def fillMissing (j : Obj) : Obj :=
  (required_fields.filter (fun f => !(dContains j f))).foldl
    (fun d f => dSet d f (fillVal f)) j

/-- The whitespace class of Python str.split with no separator
(ASCII portion). -/
def pyIsSpace (c : Char) : Bool :=
  c = ' ' || c = '\t' || c = '\n' || c = '\r' || c = '\x0b' || c = '\x0c'

/-- Worker for pySplit: walk the characters, accumulating the current
word reversed; whitespace closes the current word, and empty runs
produce no word. -/
def splitWsAux : List Char → List Char → List String
  | [], acc => if acc.isEmpty then [] else [String.mk acc.reverse]
  | c :: cs, acc =>
    if pyIsSpace c then
      if acc.isEmpty then splitWsAux cs []
      else String.mk acc.reverse :: splitWsAux cs []
    else splitWsAux cs (c :: acc)

/-- Python caption.split(): split on whitespace runs, dropping empty
pieces. -/
def pySplit (s : String) : List String :=
  splitWsAux s.toList []

/-- Python word.startswith of the hash character. -/
def startsWithHash (w : String) : Bool :=
  match w.toList with
  | c :: _ => c = '#'
  | [] => false

/-- gemini_service.py line 232: the caption tokens that start with the
hash character. -/
def hashTokens (caption : String) : List String :=
  (pySplit caption).filter startsWithHash

/-- Python runtime type name of a JSON value, used to render the
AttributeError message raised by caption.split() on a non-string. -/
def pyTypeName : JVal → String
  | JVal.str _ => "str"
  | JVal.num _ => "int"
  | JVal.bool _ => "bool"
  | JVal.null => "NoneType"
  | JVal.arr _ => "list"
  | JVal.obj _ => "dict"

/-- gemini_service.py lines 226-238: hashtag inference.  If "hashtags" is
absent, scan caption_video for hash-prefixed tokens; caption.split()
raises AttributeError when the caption value is not a string, and that
exception escapes this stage (Except.error carries its message). -/
def inferHashtags (j : Obj) : Except String Obj :=
  match dGet j "hashtags" with
  | some _ => Except.ok j
  | none =>
    match dGet j "caption_video" with
    | none => Except.ok (dSet j "hashtags" defaultHashtagsJ)
    | some v =>
      match v with
      | JVal.str caption =>
          let hs := hashTokens caption
          if hs.isEmpty then Except.ok (dSet j "hashtags" defaultHashtagsJ)
          else Except.ok (dSet j "hashtags" (JVal.arr (hs.map JVal.str)))
      | _ =>
          Except.error
            ("AttributeError: " ++ pyTypeName v ++ " object has no attribute split")

/-- Python cleaned_response.find of a character: index of its first
occurrence, none standing for -1. -/
def pyFind (s : String) (c : Char) : Option Nat :=
  s.toList.findIdx? (fun a => a = c)

/-- Python cleaned_response.rfind of a character: index of its last
occurrence, none standing for -1. -/
def pyRFind (s : String) (c : Char) : Option Nat :=
  match s.toList.reverse.findIdx? (fun a => a = c) with
  | some i => some (s.toList.length - 1 - i)
  | none => none

/-- Python slice s[a:b] for 0 <= a <= b, by code points. -/
def strSlice (s : String) (a b : Nat) : String :=
  String.mk ((s.toList.drop a).take (b - a))

/-- Python slice s[:500], attached to failure diagnostics. -/
def truncate500 (s : String) : String :=
  String.mk (s.toList.take 500)

/-- gemini_service.py lines 187-192: locate the first opening brace and
the last closing brace; when start_idx >= 0 and end_idx > start_idx,
extract the inclusive substring, else no JSON object was found. -/
def extractSpan (raw : String) : Option String :=
  match pyFind raw '\x7b', pyRFind raw '\x7d' with
  | some si, some ei => if si < ei then some (strSlice raw si (ei + 1)) else none
  | _, _ => none

/-- video_analysis_model.py lines 4-8: MusicRecommendation, with the extra
fields kept by ConfigDict extra allow. -/
structure MusicRecommendation where
  nombre_cancion : String
  artista : String
  extraFields : List (String × JVal)

/-- video_analysis_model.py lines 10-14: MusicInfo. -/
structure MusicInfo where
  hay_musica : Bool
  recomendacion : Option MusicRecommendation
  extraFields : List (String × JVal)

/-- video_analysis_model.py lines 16-20: DialogInfo; dialogo is an optional
list of (speaker, text) pairs. -/
structure DialogInfo where
  hay_dialogo : Bool
  dialogo : Option (List (String × String))
  extraFields : List (String × JVal)

/-- video_analysis_model.py lines 22-60: the VideoAnalysis schema. -/
structure VideoAnalysis where
  descripcion_original : String
  titulo_portada : String
  idea_video : String
  gancho_video : String
  acciones : List String
  dialogo : DialogInfo
  musica : MusicInfo
  expectativas_cumplidas : String
  caption_video : String
  hashtags : Option (List String)
  extraFields : List (String × JVal)

/-- Pydantic validation of a required str field: present and a string. -/
def reqStr (j : Obj) (k : String) : Except String String :=
  match dGet j k with
  | some (JVal.str s) => Except.ok s
  | some _ => Except.error (k ++ " must be a string")
  | none => Except.error (k ++ " field required")

/-- Pydantic validation of a bool value. -/
def vBool (v : JVal) : Except String Bool :=
  match v with
  | JVal.bool b => Except.ok b
  | _ => Except.error "bool expected"

/-- Pydantic validation of one element of a list of str. -/
def vStr (v : JVal) : Except String String :=
  match v with
  | JVal.str s => Except.ok s
  | _ => Except.error "str expected"

/-- Elementwise validation of a JSON array as a list of strings. -/
def mapStrs : List JVal → Except String (List String)
  | [] => Except.ok []
  | x :: xs =>
    match vStr x with
    | Except.error e => Except.error e
    | Except.ok s =>
      match mapStrs xs with
      | Except.error e => Except.error e
      | Except.ok ss => Except.ok (s :: ss)

/-- Pydantic validation of a list-of-str field. -/
def vStrList (v : JVal) : Except String (List String) :=
  match v with
  | JVal.arr xs => mapStrs xs
  | _ => Except.error "list of str expected"

/-- Pydantic validation of one dialogue entry against Tuple str str: the
entry must be a 2-element array of strings (speaker, text). -/
def vPair (v : JVal) : Except String (String × String) :=
  match v with
  | JVal.arr [JVal.str a, JVal.str b] => Except.ok (a, b)
  | _ => Except.error "dialogue entry must be a 2-element speaker and text pair"

/-- True when a dialogue entry passes vPair. -/
def isPairOk (v : JVal) : Bool :=
  match vPair v with
  | Except.ok _ => true
  | Except.error _ => false

/-- Elementwise validation of the dialogue entry list. -/
def mapPairs : List JVal → Except String (List (String × String))
  | [] => Except.ok []
  | x :: xs =>
    match vPair x with
    | Except.error e => Except.error e
    | Except.ok p =>
      match mapPairs xs with
      | Except.error e => Except.error e
      | Except.ok ps => Except.ok (p :: ps)

/-- Pydantic coercion of the dialogo field into DialogInfo. -/
def vDialog (v : JVal) : Except String DialogInfo :=
  match v with
  | JVal.obj d =>
    (match (match dGet d "hay_dialogo" with
            | some x => vBool x
            | none => Except.error "hay_dialogo field required") with
     | Except.error e => Except.error e
     | Except.ok hb =>
       match (match dGet d "dialogo" with
              | none => Except.ok (none : Option (List (String × String)))
              | some JVal.null => Except.ok none
              | some (JVal.arr xs) =>
                match mapPairs xs with
                | Except.error e => Except.error e
                | Except.ok ps => Except.ok (some ps)
              | some _ => Except.error "dialogo must be a list of pairs") with
       | Except.error e => Except.error e
       | Except.ok dl =>
         Except.ok
           ⟨hb, dl,
            d.filter (fun p => !(["hay_dialogo", "dialogo"].contains p.1))⟩)
  | _ => Except.error "dialogo must be an object"

/-- Pydantic coercion of the recomendacion field into MusicRecommendation. -/
def vMusicRec (v : JVal) : Except String MusicRecommendation :=
  match v with
  | JVal.obj d =>
    (match (match dGet d "nombre_cancion" with
            | some x => vStr x
            | none => Except.error "nombre_cancion field required") with
     | Except.error e => Except.error e
     | Except.ok nc =>
       match (match dGet d "artista" with
              | some x => vStr x
              | none => Except.error "artista field required") with
       | Except.error e => Except.error e
       | Except.ok ar =>
         Except.ok
           ⟨nc, ar,
            d.filter (fun p => !(["nombre_cancion", "artista"].contains p.1))⟩)
  | _ => Except.error "recomendacion must be an object"

/-- Pydantic coercion of the musica field into MusicInfo. -/
def vMusic (v : JVal) : Except String MusicInfo :=
  match v with
  | JVal.obj d =>
    (match (match dGet d "hay_musica" with
            | some x => vBool x
            | none => Except.error "hay_musica field required") with
     | Except.error e => Except.error e
     | Except.ok hm =>
       match (match dGet d "recomendacion" with
              | none => Except.ok (none : Option MusicRecommendation)
              | some JVal.null => Except.ok none
              | some v2 =>
                match vMusicRec v2 with
                | Except.error e => Except.error e
                | Except.ok r => Except.ok (some r)) with
       | Except.error e => Except.error e
       | Except.ok rec2 =>
         Except.ok
           ⟨hm, rec2,
            d.filter (fun p => !(["hay_musica", "recomendacion"].contains p.1))⟩)
  | _ => Except.error "musica must be an object"

/-- The declared field names of the VideoAnalysis model. -/
def modelFields : List String :=
  required_fields ++ ["hashtags"]

/-- gemini_service.py line 241 together with video_analysis_model.py:
VideoAnalysis(**json_response).  Required fields must be present with the
declared shapes; hashtags is optional with default empty list; unknown
extra fields are preserved.  An error models the pydantic
ValidationError. -/
def validateVA (j : Obj) : Except String VideoAnalysis :=
  match reqStr j "descripcion_original" with
  | Except.error e => Except.error e
  | Except.ok descripcion_original =>
  match reqStr j "titulo_portada" with
  | Except.error e => Except.error e
  | Except.ok titulo_portada =>
  match reqStr j "idea_video" with
  | Except.error e => Except.error e
  | Except.ok idea_video =>
  match reqStr j "gancho_video" with
  | Except.error e => Except.error e
  | Except.ok gancho_video =>
  match (match dGet j "acciones" with
         | some v => vStrList v
         | none => Except.error "acciones field required") with
  | Except.error e => Except.error e
  | Except.ok acciones =>
  match (match dGet j "dialogo" with
         | some v => vDialog v
         | none => Except.error "dialogo field required") with
  | Except.error e => Except.error e
  | Except.ok dialogo =>
  match (match dGet j "musica" with
         | some v => vMusic v
         | none => Except.error "musica field required") with
  | Except.error e => Except.error e
  | Except.ok musica =>
  match reqStr j "expectativas_cumplidas" with
  | Except.error e => Except.error e
  | Except.ok expectativas_cumplidas =>
  match reqStr j "caption_video" with
  | Except.error e => Except.error e
  | Except.ok caption_video =>
  match (match dGet j "hashtags" with
         | none => Except.ok (some ([] : List String))
         | some JVal.null => Except.ok (none : Option (List String))
         | some v => match vStrList v with
                     | Except.error e => Except.error e
                     | Except.ok xs => Except.ok (some xs)) with
  | Except.error e => Except.error e
  | Except.ok hashtags =>
    Except.ok
      ⟨descripcion_original, titulo_portada, idea_video, gancho_video,
       acciones, dialogo, musica, expectativas_cumplidas, caption_video,
       hashtags, j.filter (fun p => !(modelFields.contains p.1))⟩

/-- True when an Except value is ok. -/
def isOkE {α : Type} (x : Except String α) : Bool :=
  match x with
  | Except.ok _ => true
  | Except.error _ => false

/-- Outcome of the repair stage (gemini_service.py lines 186-250): a
repaired object, one of the two explicit failure kinds with the truncated
raw text attached, or a Python exception escaping the stage. -/
inductive RepairResult where
  | ok (j : Obj)
  | noJsonFound (diag : String)
  | jsonParseError (diag : String)
  | raised (msg : String)

/-- The object-level portion of repair (gemini_service.py lines 203-238):
aliasing, required-field sweep, hashtag inference. -/
def repairObj (j : Obj) : Except String Obj :=
  inferHashtags (fillMissing (applyMapping j))

/-- gemini_service.py lines 186-250: the repair stage on raw model text.
The parse oracle stands for json.loads on the extracted substring. -/
def repair (parse : String → Except String Obj) (raw : String) : RepairResult :=
  match extractSpan raw with
  | none => RepairResult.noJsonFound (truncate500 raw)
  | some js =>
    match parse js with
    | Except.error _ => RepairResult.jsonParseError (truncate500 raw)
    | Except.ok j =>
      match repairObj j with
      | Except.error m => RepairResult.raised m
      | Except.ok j3 => RepairResult.ok j3

/-- True when a RepairResult is not an escaped Python exception. -/
def notRaised (r : RepairResult) : Bool :=
  match r with
  | RepairResult.raised _ => false
  | _ => true

/-- Guard under which hashtag inference cannot raise: hashtags already
present, caption_video absent, or caption_video a string. -/
def captionGuard (j : Obj) : Bool :=
  dContains j "hashtags" ||
    (match dGet j "caption_video" with
     | none => true
     | some (JVal.str _) => true
     | some _ => false)

/-- Result of one generate_content call of the remote oracle: either an
exception with its message str(e), or the response text. -/
inductive AttemptResult where
  | raised (msg : String)
  | text (raw : String)

/-- What one attempt produces after the response-processing region
(gemini_service.py lines 180-250): a validated result, one of the two
direct return-None repair failures, or an exception reaching the handler
at line 252 (from the remote call, from caption.split, or from pydantic). -/
inductive AttemptOutcome where
  | ok (r : VideoAnalysis)
  | noJson (d : String)
  | parseErr (d : String)
  | raised (m : String)

/-- gemini_service.py lines 175-250: run one attempt result through the
response processing; remote exceptions pass straight to the handler. -/
def processAttempt (parse : String → Except String Obj) :
    AttemptResult → AttemptOutcome
  | AttemptResult.raised m => AttemptOutcome.raised m
  | AttemptResult.text raw =>
    match repair parse raw with
    | RepairResult.ok j =>
      match validateVA j with
      | Except.ok r => AttemptOutcome.ok r
      | Except.error m => AttemptOutcome.raised m
    | RepairResult.noJsonFound d => AttemptOutcome.noJson d
    | RepairResult.jsonParseError d => AttemptOutcome.parseErr d
    | RepairResult.raised m => AttemptOutcome.raised m

/-- Lowercase of a string, Python str.lower on the ASCII range. -/
def pyLower (s : String) : String :=
  String.mk (s.toList.map Char.toLower)

/-- True when the first character list is a prefix of the second. -/
def charsPrefix : List Char → List Char → Bool
  | [], _ => true
  | _ :: _, [] => false
  | a :: as, b :: bs => a = b && charsPrefix as bs

/-- True when the first character list occurs contiguously in the second. -/
def charsInfix : List Char → List Char → Bool
  | needle, [] => needle.isEmpty
  | needle, b :: bs => charsPrefix needle (b :: bs) || charsInfix needle bs

/-- Python substring test: needle in hay. -/
def isSubstr (needle hay : String) : Bool :=
  charsInfix needle.toList hay.toList

/-- gemini_service.py line 260: quota / rate-limit classification of an
exception message. -/
def classifyQuota (e : String) : Bool :=
  isSubstr "quota" (pyLower e) || isSubstr "rate limit" (pyLower e)

/-- gemini_service.py line 271: payload-too-large classification of an
exception message (checked only after the quota check fails). -/
def classifyTooLarge (e : String) : Bool :=
  isSubstr "too large" (pyLower e) || isSubstr "size limit" (pyLower e)

/-- The distinguishable exit paths of analyze_video.  The source returns
None on every failure path; the constructors name which return-None site
was taken, following the failure taxonomy of the specification
(preparationError is the handler at line 277, reached when an iteration
raises before the remote call). -/
inductive Outcome where
  | success (r : VideoAnalysis)
  | quotaExhausted
  | payloadTooLarge
  | unrecoverable
  | noJsonFoundFail (diag : String)
  | jsonParseErrorFail (diag : String)
  | preparationError

/-- Observable trace of one analyze_video run: the exit path taken, the
backoff sleeps performed in order, and the number of remote calls made. -/
structure RunResult where
  outcome : Outcome
  sleeps : List Nat
  calls : Nat

/-- gemini_service.py lines 252-275: the reaction of the exception
handler and return sites to what one iteration produced.  k is the
current retry_count; retryRes carries the rest of the run when a quota
retry is still permitted (retry_count < max_retries), and none when
retries are exhausted.  A quota retry sleeps (2 ** retry_count) * 5
seconds (line 262) before the rest of the run. -/
def analyzeStep (step : AttemptOutcome) (k : Nat)
    (retryRes : Option RunResult) : RunResult :=
  match step with
  | AttemptOutcome.ok r => ⟨Outcome.success r, [], 1⟩
  | AttemptOutcome.noJson d => ⟨Outcome.noJsonFoundFail d, [], 1⟩
  | AttemptOutcome.parseErr d => ⟨Outcome.jsonParseErrorFail d, [], 1⟩
  | AttemptOutcome.raised msg =>
    if classifyQuota msg then
      match retryRes with
      | some res => ⟨res.outcome, 2 ^ k * 5 :: res.sleeps, res.calls + 1⟩
      | none => ⟨Outcome.quotaExhausted, [], 1⟩
    else if classifyTooLarge msg then ⟨Outcome.payloadTooLarge, [], 1⟩
    else ⟨Outcome.unrecoverable, [], 1⟩

/-- gemini_service.py lines 136-290: the retry loop.  Arguments: the
remote-call oracle (indexed by retry_count), the json.loads oracle, the
current retry_count k, remaining = max_retries - retry_count, and whether
video_base64 still holds the payload.  The finally block at line 283 sets
video_base64 = None on every way out of the try body, including the
continue of a quota retry, so every iteration after the first finds
video_base64 = None and base64.b64decode raises TypeError at line 144,
caught by the handler at line 277 (return None) before any remote call. -/
def analyzeAux (call : Nat → AttemptResult)
    (parse : String → Except String Obj) :
    Nat → Nat → Bool → RunResult
  | _, _, false => ⟨Outcome.preparationError, [], 0⟩
  | k, 0, true => analyzeStep (processAttempt parse (call k)) k none
  | k, rem + 1, true =>
    analyzeStep (processAttempt parse (call k)) k
      (some (analyzeAux call parse (k + 1) rem false))

/-- gemini_service.py lines 104-290: analyze_video after the payload has
been read and base64-encoded, with its remote call and json.loads
modelled as oracles. -/
def analyze_video (call : Nat → AttemptResult)
    (parse : String → Except String Obj) (max_retries : Nat) : RunResult :=
  analyzeAux call parse 0 max_retries true

/-- A json.loads oracle for a single known document: parsing the expected
extracted substring yields the given object, anything else is a parse
error. -/
def constParse (js : String) (j : Obj) : String → Except String Obj :=
  fun s => if s = js then Except.ok j else Except.error "Expecting value"

/-- A fully populated, schema-conforming parsed response. -/
def exObjFull : Obj :=
  [("descripcion_original", JVal.str "d"),
   ("titulo_portada", JVal.str "t"),
   ("idea_video", JVal.str "i"),
   ("gancho_video", JVal.str "g"),
   ("acciones", JVal.arr [JVal.str "a"]),
   ("dialogo", JVal.obj [("hay_dialogo", JVal.bool false)]),
   ("musica", JVal.obj [("hay_musica", JVal.bool false)]),
   ("expectativas_cumplidas", JVal.str "e"),
   ("caption_video", JVal.str "c"),
   ("hashtags", JVal.arr [JVal.str "#x"])]

/-- The raw model text whose JSON span parses to exObjFull. -/
def exRawFull : String :=
  "\x7b\"descripcion_original\": \"d\", \"titulo_portada\": \"t\", \"idea_video\": \"i\", \"gancho_video\": \"g\", \"acciones\": [\"a\"], \"dialogo\": \x7b\"hay_dialogo\": false\x7d, \"musica\": \x7b\"hay_musica\": false\x7d, \"expectativas_cumplidas\": \"e\", \"caption_video\": \"c\", \"hashtags\": [\"#x\"]\x7d"

/-- json.loads oracle for exRawFull. -/
def exParseFull : String → Except String Obj :=
  constParse exRawFull exObjFull

/-- The VideoAnalysis that validation produces from exObjFull. -/
def exVAFull : VideoAnalysis :=
  ⟨"d", "t", "i", "g", ["a"], ⟨false, none, []⟩, ⟨false, none, []⟩,
   "e", "c", some ["#x"], []⟩

/-- Remote oracle for the retry scenario of the specification: quota
failures on attempts 0 and 1, a good response on attempt 2. -/
def quotaThenOkCall : Nat → AttemptResult :=
  fun k =>
    if k < 2 then
      AttemptResult.raised "429 Resource exhausted: check quota and rate limit"
    else AttemptResult.text exRawFull

/-- exObjFull without its hashtags field. -/
def exObjNoHash : Obj :=
  [("descripcion_original", JVal.str "d"),
   ("titulo_portada", JVal.str "t"),
   ("idea_video", JVal.str "i"),
   ("gancho_video", JVal.str "g"),
   ("acciones", JVal.arr [JVal.str "a"]),
   ("dialogo", JVal.obj [("hay_dialogo", JVal.bool false)]),
   ("musica", JVal.obj [("hay_musica", JVal.bool false)]),
   ("expectativas_cumplidas", JVal.str "e"),
   ("caption_video", JVal.str "c")]

/-- The raw model text whose JSON span parses to exObjNoHash. -/
def exRawNoHash : String :=
  "\x7b\"descripcion_original\": \"d\", \"titulo_portada\": \"t\", \"idea_video\": \"i\", \"gancho_video\": \"g\", \"acciones\": [\"a\"], \"dialogo\": \x7b\"hay_dialogo\": false\x7d, \"musica\": \x7b\"hay_musica\": false\x7d, \"expectativas_cumplidas\": \"e\", \"caption_video\": \"c\"\x7d"

/-- json.loads oracle for exRawNoHash. -/
def exParseNoHash : String → Except String Obj :=
  constParse exRawNoHash exObjNoHash

/-- Validating exObjNoHash directly: hashtags defaults to the empty list. -/
def exVANoHash : VideoAnalysis :=
  ⟨"d", "t", "i", "g", ["a"], ⟨false, none, []⟩, ⟨false, none, []⟩,
   "e", "c", some [], []⟩

/-- What the pipeline returns for exRawNoHash: repair has appended the
default hashtag set before validation. -/
def exVANoHashRepaired : VideoAnalysis :=
  ⟨"d", "t", "i", "g", ["a"], ⟨false, none, []⟩, ⟨false, none, []⟩,
   "e", "c", some default_hashtags, []⟩

/-- exObjFull with an empty string in the required field
descripcion_original. -/
def exObjEmptyDesc : Obj :=
  [("descripcion_original", JVal.str ""),
   ("titulo_portada", JVal.str "t"),
   ("idea_video", JVal.str "i"),
   ("gancho_video", JVal.str "g"),
   ("acciones", JVal.arr [JVal.str "a"]),
   ("dialogo", JVal.obj [("hay_dialogo", JVal.bool false)]),
   ("musica", JVal.obj [("hay_musica", JVal.bool false)]),
   ("expectativas_cumplidas", JVal.str "e"),
   ("caption_video", JVal.str "c"),
   ("hashtags", JVal.arr [JVal.str "#x"])]

/-- The raw model text whose JSON span parses to exObjEmptyDesc. -/
def exRawEmptyDesc : String :=
  "\x7b\"descripcion_original\": \"\", \"titulo_portada\": \"t\", \"idea_video\": \"i\", \"gancho_video\": \"g\", \"acciones\": [\"a\"], \"dialogo\": \x7b\"hay_dialogo\": false\x7d, \"musica\": \x7b\"hay_musica\": false\x7d, \"expectativas_cumplidas\": \"e\", \"caption_video\": \"c\", \"hashtags\": [\"#x\"]\x7d"

/-- json.loads oracle for exRawEmptyDesc. -/
def exParseEmptyDesc : String → Except String Obj :=
  constParse exRawEmptyDesc exObjEmptyDesc

/-- A syntactically valid object whose caption_video holds a number, with
hashtags absent: the value reaching caption.split() is not a string. -/
def exObjBadCaption : Obj :=
  [("descripcion_original", JVal.str "d"),
   ("titulo_portada", JVal.str "t"),
   ("idea_video", JVal.str "i"),
   ("gancho_video", JVal.str "g"),
   ("acciones", JVal.arr [JVal.str "a"]),
   ("dialogo", JVal.obj [("hay_dialogo", JVal.bool false)]),
   ("musica", JVal.obj [("hay_musica", JVal.bool false)]),
   ("expectativas_cumplidas", JVal.str "e"),
   ("caption_video", JVal.num 42)]

/-- The raw model text whose JSON span parses to exObjBadCaption. -/
def exRawBadCaption : String :=
  "\x7b\"descripcion_original\": \"d\", \"titulo_portada\": \"t\", \"idea_video\": \"i\", \"gancho_video\": \"g\", \"acciones\": [\"a\"], \"dialogo\": \x7b\"hay_dialogo\": false\x7d, \"musica\": \x7b\"hay_musica\": false\x7d, \"expectativas_cumplidas\": \"e\", \"caption_video\": 42\x7d"

/-- json.loads oracle for exRawBadCaption. -/
def exParseBadCaption : String → Except String Obj :=
  constParse exRawBadCaption exObjBadCaption

/-- exObjFull with a 3-element dialogue entry instead of a pair. -/
def exObjBadDialog : Obj :=
  [("descripcion_original", JVal.str "d"),
   ("titulo_portada", JVal.str "t"),
   ("idea_video", JVal.str "i"),
   ("gancho_video", JVal.str "g"),
   ("acciones", JVal.arr [JVal.str "a"]),
   ("dialogo",
    JVal.obj
      [("hay_dialogo", JVal.bool true),
       ("dialogo",
        JVal.arr [JVal.arr [JVal.str "a", JVal.str "b", JVal.str "c"]])]),
   ("musica", JVal.obj [("hay_musica", JVal.bool false)]),
   ("expectativas_cumplidas", JVal.str "e"),
   ("caption_video", JVal.str "c"),
   ("hashtags", JVal.arr [JVal.str "#x"])]

/-- An object using the alias key titulo instead of titulo_portada. -/
def exObjAlias : Obj :=
  [("titulo", JVal.str "T"), ("caption_video", JVal.str "c")]

/-- An object without hashtags whose caption carries two hash tokens. -/
def exObjCapTags : Obj :=
  [("caption_video", JVal.str "hola #a #b")]

/-- Raw model text with no opening brace at all. -/
def exRawNoBraces : String := "sin llaves aqui"

/-- Raw model text with a bracketed span that is not valid JSON. -/
def exRawBadJson : String := "x \x7b not json \x7d y"

/-- A json.loads oracle that always fails. -/
def errParse : String → Except String Obj :=
  fun _ => Except.error "Expecting value"

/-- Remote oracle that always fails with a payload-size message. -/
def tooLargeCall : Nat → AttemptResult :=
  fun _ => AttemptResult.raised "400 Request payload is too large"

end AutoBriefing

namespace AutoBriefing

theorem dGet_dSet_self (d : Obj) (k : String) (v : JVal) :
    dGet (dSet d k v) k = some v := by
  induction d with
  | nil => simp [dSet, dGet]
  | cons p rest ih =>
    obtain ⟨k1, v1⟩ := p
    by_cases h : k1 = k
    · subst h; simp [dSet, dGet]
    · simp [dSet, dGet, h, ih]

theorem dGet_dSet_ne (d : Obj) (k : String) (v : JVal) (k2 : String)
    (h : k2 ≠ k) : dGet (dSet d k v) k2 = dGet d k2 := by
  induction d with
  | nil =>
    have h2 : ¬ k = k2 := fun hh => h hh.symm
    simp [dSet, dGet, h2]
  | cons p rest ih =>
    obtain ⟨k1, v1⟩ := p
    by_cases h1 : k1 = k
    · subst h1
      have h2 : ¬ k1 = k2 := fun hh => h (hh.symm)
      simp [dSet, dGet, h2]
    · by_cases h2 : k1 = k2
      · subst h2; simp [dSet, dGet, h1]
      · simp [dSet, dGet, h1, h2, ih]

theorem dGet_dPop_ne (d : Obj) (k k2 : String) (h : k2 ≠ k) :
    dGet (dPop d k) k2 = dGet d k2 := by
  induction d with
  | nil => simp [dPop, dGet]
  | cons p rest ih =>
    obtain ⟨k1, v1⟩ := p
    by_cases h1 : k1 = k
    · subst h1
      have h2 : ¬ k1 = k2 := fun hh => h (hh.symm)
      simp [dPop, dGet, h2]
    · by_cases h2 : k1 = k2
      · subst h2; simp [dPop, dGet, h1]
      · simp [dPop, dGet, h1, h2, ih]

theorem dKeys_cons (k1 : String) (v1 : JVal) (rest : Obj) :
    dKeys ((k1, v1) :: rest) = k1 :: dKeys rest := rfl

theorem dGet_none_of_not_mem_keys (d : Obj) (k : String)
    (h : k ∉ dKeys d) : dGet d k = none := by
  induction d with
  | nil => simp [dGet]
  | cons p rest ih =>
    obtain ⟨k1, v1⟩ := p
    rw [dKeys_cons] at h
    simp only [List.mem_cons, not_or] at h
    have h1 : ¬ k1 = k := fun hh => h.1 hh.symm
    simp [dGet, h1]
    exact ih h.2

theorem dGet_dPop_self (d : Obj) (k : String) (h : (dKeys d).Nodup) :
    dGet (dPop d k) k = none := by
  induction d with
  | nil => simp [dPop, dGet]
  | cons p rest ih =>
    obtain ⟨k1, v1⟩ := p
    rw [dKeys_cons] at h
    by_cases h1 : k1 = k
    · subst h1
      simp [dPop]
      exact dGet_none_of_not_mem_keys rest k1 (List.nodup_cons.mp h).1
    · simp [dPop, dGet, h1]
      exact ih (List.nodup_cons.mp h).2

theorem dKeys_dPop_sublist (d : Obj) (k : String) :
    List.Sublist (dKeys (dPop d k)) (dKeys d) := by
  induction d with
  | nil => simp [dPop, dKeys]
  | cons p rest ih =>
    obtain ⟨k1, v1⟩ := p
    by_cases h1 : k1 = k
    · rw [show dPop ((k1, v1) :: rest) k = rest from by simp [dPop, h1]]
      rw [dKeys_cons]
      exact List.sublist_cons_self k1 (dKeys rest)
    · rw [show dPop ((k1, v1) :: rest) k = (k1, v1) :: dPop rest k from by
        simp [dPop, h1]]
      rw [dKeys_cons, dKeys_cons]
      exact List.Sublist.cons₂ k1 ih

theorem nodup_dPop (d : Obj) (k : String) (h : (dKeys d).Nodup) :
    (dKeys (dPop d k)).Nodup :=
  (dKeys_dPop_sublist d k).nodup h

theorem mem_keys_dPop (d : Obj) (k k2 : String)
    (h : k2 ∈ dKeys (dPop d k)) : k2 ∈ dKeys d :=
  (dKeys_dPop_sublist d k).mem h

theorem dKeys_dSet_absent (d : Obj) (k : String) (v : JVal)
    (h : dContains d k = false) :
    dKeys (dSet d k v) = dKeys d ++ [k] := by
  induction d with
  | nil => simp [dSet, dKeys]
  | cons p rest ih =>
    obtain ⟨k1, v1⟩ := p
    by_cases h1 : k1 = k
    · subst h1
      simp [dContains, dGet] at h
    · simp [dContains, dGet, h1] at h
      rw [show dSet ((k1, v1) :: rest) k v = (k1, v1) :: dSet rest k v from by
        simp [dSet, h1]]
      rw [dKeys_cons, dKeys_cons, List.cons_append]
      rw [ih (by simp [dContains, h])]

theorem mem_keys_imp_dContains (d : Obj) (k : String)
    (h : k ∈ dKeys d) : dContains d k = true := by
  induction d with
  | nil => simp [dKeys] at h
  | cons p rest ih =>
    obtain ⟨k1, v1⟩ := p
    rw [dKeys_cons] at h
    rcases List.mem_cons.mp h with h | h
    · subst h; simp [dContains, dGet]
    · by_cases h1 : k1 = k
      · simp [dContains, dGet, h1]
      · have hih := ih h
        simp [dContains, dGet, h1]
        simpa [dContains] using hih

theorem nodup_dSet_absent (d : Obj) (k : String) (v : JVal)
    (hnd : (dKeys d).Nodup) (h : dContains d k = false) :
    (dKeys (dSet d k v)).Nodup := by
  rw [dKeys_dSet_absent d k v h]
  refine List.Nodup.append hnd (List.nodup_singleton k) ?_
  intro a ha hb
  simp at hb
  subst hb
  exact absurd (mem_keys_imp_dContains d a ha) (by simp [h])

theorem dContains_imp_mem_keys (d : Obj) (k : String)
    (h : dContains d k = true) : k ∈ dKeys d := by
  induction d with
  | nil => simp [dContains, dGet] at h
  | cons p rest ih =>
    obtain ⟨k1, v1⟩ := p
    rw [dKeys_cons]
    by_cases h1 : k1 = k
    · subst h1; exact List.mem_cons_self k1 (dKeys rest)
    · simp [dContains, dGet, h1] at h
      exact List.mem_cons_of_mem k1 (ih (by simp [dContains, h]))

theorem dContains_dPop_false (j : Obj) (old new : String)
    (h : dContains j new = false) : dContains (dPop j old) new = false := by
  cases hc : dContains (dPop j old) new with
  | false => rfl
  | true =>
    have hm := mem_keys_dPop j old new (dContains_imp_mem_keys (dPop j old) new hc)
    rw [mem_keys_imp_dContains j new hm] at h
    cases h

theorem dGet_eq_dContains_eq (d1 d2 : Obj) (k : String)
    (h : dGet d1 k = dGet d2 k) : dContains d1 k = dContains d2 k := by
  simp [dContains, h]

theorem applyOne_get_other (old new : String) (j : Obj) (k : String)
    (h1 : k ≠ old) (h2 : k ≠ new) :
    dGet (applyOne old new j) k = dGet j k := by
  unfold applyOne
  cases hb : (dContains j old && !(dContains j new)) with
  | false => simp [hb]
  | true =>
    simp [hb]
    rw [dGet_dSet_ne _ _ _ _ h2, dGet_dPop_ne _ _ _ h1]

theorem applyOne_newPresent (old new : String) (j : Obj)
    (h : dContains j new = true) : applyOne old new j = j := by
  simp [applyOne, h]

theorem applyOne_fires_new (old new : String) (j : Obj)
    (ho : dContains j old = true) (hn : dContains j new = false) :
    dGet (applyOne old new j) new = dGet j old := by
  simp [applyOne, ho, hn]
  rw [dGet_dSet_self]
  rcases Option.isSome_iff_exists.mp (by simpa [dContains] using ho) with ⟨x, hx⟩
  rw [hx]
  rfl

theorem applyOne_fires_old (old new : String) (j : Obj)
    (hnd : (dKeys j).Nodup) (hne : old ≠ new)
    (ho : dContains j old = true) (hn : dContains j new = false) :
    dGet (applyOne old new j) old = none := by
  simp [applyOne, ho, hn]
  rw [dGet_dSet_ne _ _ _ _ hne, dGet_dPop_self _ _ hnd]

theorem applyOne_nodup (old new : String) (j : Obj)
    (hnd : (dKeys j).Nodup) : (dKeys (applyOne old new j)).Nodup := by
  unfold applyOne
  cases hb : (dContains j old && !(dContains j new)) with
  | false => simpa [hb] using hnd
  | true =>
    simp [hb]
    rcases Bool.and_eq_true_iff.mp hb with ⟨_, hn⟩
    have hn2 : dContains j new = false := by
      cases hx : dContains j new
      · rfl
      · rw [hx] at hn; cases hn
    exact nodup_dSet_absent (dPop j old) new _ (nodup_dPop j old hnd)
      (dContains_dPop_false j old new hn2)

theorem fillList_get (fs : List String) (d : Obj) (key : String) :
    dGet (fs.foldl (fun d2 f => dSet d2 f (fillVal f)) d) key =
      if key ∈ fs then some (fillVal key) else dGet d key := by
  induction fs generalizing d with
  | nil => simp
  | cons f rest ih =>
    simp only [List.foldl_cons]
    rw [ih]
    by_cases hk : key ∈ rest
    · simp [hk, List.mem_cons]
    · by_cases hf : key = f
      · subst hf
        simp [hk, List.mem_cons, dGet_dSet_self]
      · simp [hk, List.mem_cons, hf, dGet_dSet_ne _ _ _ _ hf]

theorem fillMissing_get (j : Obj) (key : String) :
    dGet (fillMissing j) key =
      if key ∈ required_fields ∧ dContains j key = false
      then some (fillVal key) else dGet j key := by
  unfold fillMissing
  rw [fillList_get]
  by_cases h : key ∈ required_fields.filter (fun f => !(dContains j f))
  · have h2 := List.mem_filter.mp h
    simp only [Bool.not_eq_eq_eq_not, Bool.not_true] at h2
    simp [h, h2.1, h2.2]
  · simp only [h, if_false]
    by_cases h1 : key ∈ required_fields ∧ dContains j key = false
    · exact absurd (List.mem_filter.mpr ⟨h1.1, by simp [h1.2]⟩) h
    · simp [h1]

theorem inferHashtags_ok_of_guard (j : Obj) (h : captionGuard j = true) :
    ∃ j2, inferHashtags j = Except.ok j2 := by
  cases hh : dGet j "hashtags" with
  | some v => exact ⟨j, by simp [inferHashtags, hh]⟩
  | none =>
    have hg : (match dGet j "caption_video" with
               | none => true
               | some (JVal.str _) => true
               | some _ => false) = true := by
      unfold captionGuard at h
      simpa [dContains, hh] using h
    cases hc : dGet j "caption_video" with
    | none =>
      exact ⟨dSet j "hashtags" defaultHashtagsJ, by simp [inferHashtags, hh, hc]⟩
    | some v =>
      cases v with
      | str s =>
        cases hemp : (hashTokens s).isEmpty with
        | true =>
          exact ⟨dSet j "hashtags" defaultHashtagsJ,
            by simp [inferHashtags, hh, hc, hemp]⟩
        | false =>
          exact ⟨dSet j "hashtags" (JVal.arr ((hashTokens s).map JVal.str)),
            by simp [inferHashtags, hh, hc, hemp]⟩
      | num n => rw [hc] at hg; cases hg
      | bool b => rw [hc] at hg; cases hg
      | null => rw [hc] at hg; cases hg
      | arr xs => rw [hc] at hg; cases hg
      | obj d2 => rw [hc] at hg; cases hg

theorem mapPairs_not_ok (xs : List JVal) (e : JVal) (he : e ∈ xs)
    (hbad : isPairOk e = false) : isOkE (mapPairs xs) = false := by
  induction xs with
  | nil => simp at he
  | cons x rest ih =>
    rcases List.mem_cons.mp he with h | h
    · subst h
      cases hv : vPair e with
      | ok p => simp [isPairOk, hv] at hbad
      | error m => simp [mapPairs, hv, isOkE]
    · cases hv : vPair x with
      | error m => simp [mapPairs, hv, isOkE]
      | ok p =>
        have hr := ih h
        cases hm : mapPairs rest with
        | error m2 => simp [mapPairs, hv, hm, isOkE]
        | ok ps => rw [hm] at hr; simp [isOkE] at hr

theorem vDialog_not_ok (d : Obj) (xs : List JVal) (e : JVal)
    (hd : dGet d "dialogo" = some (JVal.arr xs)) (he : e ∈ xs)
    (hbad : isPairOk e = false) : isOkE (vDialog (JVal.obj d)) = false := by
  unfold vDialog
  cases hb : (match dGet d "hay_dialogo" with
              | some x => vBool x
              | none => Except.error "hay_dialogo field required") with
  | error m => simp [hb, isOkE]
  | ok hbv =>
    simp only [hb, hd]
    cases hm : mapPairs xs with
    | error m2 => simp [hm, isOkE]
    | ok ps =>
      have hr := mapPairs_not_ok xs e he hbad
      rw [hm] at hr
      simp [isOkE] at hr

theorem validateVA_not_ok_of_dialog (j : Obj) (v : JVal)
    (hj : dGet j "dialogo" = some v) (hv : isOkE (vDialog v) = false) :
    isOkE (validateVA j) = false := by
  unfold validateVA
  cases h1 : reqStr j "descripcion_original" with
  | error m => simp [isOkE]
  | ok s1 =>
  cases h2 : reqStr j "titulo_portada" with
  | error m => simp [isOkE]
  | ok s2 =>
  cases h3 : reqStr j "idea_video" with
  | error m => simp [isOkE]
  | ok s3 =>
  cases h4 : reqStr j "gancho_video" with
  | error m => simp [isOkE]
  | ok s4 =>
  cases h5 : (match dGet j "acciones" with
              | some v2 => vStrList v2
              | none => Except.error "acciones field required") with
  | error m => simp [h5, isOkE]
  | ok a5 =>
  simp only [h5, hj]
  cases h6 : vDialog v with
  | error m => simp [isOkE]
  | ok d6 => rw [h6] at hv; simp [isOkE] at hv

theorem dContains_false_dGet_none (d : Obj) (k : String)
    (h : dContains d k = false) : dGet d k = none := by
  cases hx : dGet d k with
  | none => rfl
  | some v =>
    unfold dContains at h
    rw [hx] at h
    cases h

theorem fillMissing_props (j1 : Obj) :
    (∀ f, f ∈ required_fields → dContains (fillMissing j1) f = true) ∧
    (∀ f, f ∈ required_fields → dContains j1 f = false →
       dGet (fillMissing j1) f = some (JVal.str "No especificado")) ∧
    (∀ f, dContains j1 f = true → dGet (fillMissing j1) f = dGet j1 f) := by
  refine ⟨?_, ?_, ?_⟩
  · intro f hf
    unfold dContains
    rw [fillMissing_get]
    cases hc : dContains j1 f with
    | false => simp [hf]
    | true =>
      rw [if_neg (fun hx => by simp [hc] at hx)]
      simpa [dContains] using hc
  · intro f hf hc
    rw [fillMissing_get, if_pos ⟨hf, hc⟩]
    have hne : ¬ f = "hashtags" := by
      intro hx
      subst hx
      exact absurd hf (by decide)
    simp [fillVal, hne]
  · intro f hc
    rw [fillMissing_get]
    rw [if_neg (fun hx => by simp [hc] at hx)]

/-- C2: a remote-call failure classified as payload-too-large (not
quota-classified, matching a size message) makes the run return the
PayloadTooLarge failure with exactly one remote call, no retry and no
backoff sleep, for every max_retries. -/
theorem c2_payload_abort (call : Nat → AttemptResult)
    (parse : String → Except String Obj) (max_retries : Nat) (msg : String)
    (h0 : call 0 = AttemptResult.raised msg)
    (hq : classifyQuota msg = false)
    (ht : classifyTooLarge msg = true) :
    analyze_video call parse max_retries =
      ⟨Outcome.payloadTooLarge, [], 1⟩ := by
  unfold analyze_video
  cases max_retries with
  | zero => simp [analyzeAux, analyzeStep, processAttempt, h0, hq, ht]
  | succ n => simp [analyzeAux, analyzeStep, processAttempt, h0, hq, ht]

/-- Witness for C2 at a concrete payload-size failure message. -/
theorem c2_witness :
    analyze_video tooLargeCall exParseFull 3 =
      ⟨Outcome.payloadTooLarge, [], 1⟩ :=
  c2_payload_abort tooLargeCall exParseFull 3
    "400 Request payload is too large" rfl rfl rfl

/-- C3: repair locates the first opening brace and the last closing brace
of the raw text; when the span is missing (no opening brace, no closing
brace, or the last closing brace not after the first opening brace) it
fails with NoJsonFound; otherwise it parses the inclusive substring, and
a parse error yields JsonParseError carrying the raw text truncated to at
most 500 characters. -/
theorem c3_repair_extraction (parse : String → Except String Obj)
    (raw : String) :
    (extractSpan raw = none →
       repair parse raw = RepairResult.noJsonFound (truncate500 raw)) ∧
    (pyFind raw '\x7b' = none → extractSpan raw = none) ∧
    (pyRFind raw '\x7d' = none → extractSpan raw = none) ∧
    (∀ si ei, pyFind raw '\x7b' = some si → pyRFind raw '\x7d' = some ei →
       ¬ si < ei → extractSpan raw = none) ∧
    (∀ si ei, pyFind raw '\x7b' = some si → pyRFind raw '\x7d' = some ei →
       si < ei →
       extractSpan raw = some (strSlice raw si (ei + 1)) ∧
       (∀ m, parse (strSlice raw si (ei + 1)) = Except.error m →
          repair parse raw = RepairResult.jsonParseError (truncate500 raw))) ∧
    (truncate500 raw).length ≤ 500 := by
  refine ⟨?_, ?_, ?_, ?_, ?_, ?_⟩
  · intro h
    simp [repair, h]
  · intro h
    simp [extractSpan, h]
  · intro h
    unfold extractSpan
    rw [h]
    cases pyFind raw '\x7b' <;> rfl
  · intro si ei h1 h2 h3
    simp [extractSpan, h1, h2, h3]
  · intro si ei h1 h2 h3
    have hspan : extractSpan raw = some (strSlice raw si (ei + 1)) := by
      simp [extractSpan, h1, h2, h3]
    refine ⟨hspan, ?_⟩
    intro m hm
    simp [repair, hspan, hm]
  · show (String.mk (raw.toList.take 500)).length ≤ 500
    have he : (String.mk (raw.toList.take 500)).length =
        (raw.toList.take 500).length := rfl
    rw [he]
    exact List.length_take_le 500 raw.toList

/-- Witness for C3: a raw text whose bracketed span fails to parse yields
JsonParseError, and a raw text with no braces yields NoJsonFound. -/
theorem c3_witness :
    repair errParse exRawBadJson =
      RepairResult.jsonParseError (truncate500 exRawBadJson) ∧
    repair errParse exRawNoBraces =
      RepairResult.noJsonFound (truncate500 exRawNoBraces) := by
  constructor
  · exact ((c3_repair_extraction errParse exRawBadJson).2.2.2.2.1 2 13 rfl rfl
      (by decide)).2 "Expecting value" rfl
  · exact (c3_repair_extraction errParse exRawNoBraces).1 rfl

/-- C4 counterexample: a run of repair (on a parsed object whose required
field descripcion_original holds the empty string) returns an object in
which that required field is present but empty, refuting the non-empty
part of the invariant. -/
theorem c4_cex :
    ("descripcion_original" ∈ required_fields) ∧
    repair exParseEmptyDesc exRawEmptyDesc = RepairResult.ok exObjEmptyDesc ∧
    dGet exObjEmptyDesc "descripcion_original" = some (JVal.str "") :=
  ⟨by decide, rfl, rfl⟩

/-- C4 as amended: after the sweep every required field is present; every
required field absent after aliasing receives the string placeholder; and
fields already present keep their values (they are not forced non-empty). -/
theorem c4_fill_defaults (j : Obj) :
    (∀ f, f ∈ required_fields →
       dContains (fillMissing (applyMapping j)) f = true) ∧
    (∀ f, f ∈ required_fields → dContains (applyMapping j) f = false →
       dGet (fillMissing (applyMapping j)) f =
         some (JVal.str "No especificado")) ∧
    (∀ f, dContains (applyMapping j) f = true →
       dGet (fillMissing (applyMapping j)) f = dGet (applyMapping j) f) :=
  fillMissing_props (applyMapping j)

/-- Witness for C4: on the empty object every required field is filled
with the placeholder, and on exObjFull the present values survive. -/
theorem c4_witness :
    dGet (fillMissing (applyMapping [])) "idea_video" =
      some (JVal.str "No especificado") ∧
    dGet (fillMissing (applyMapping exObjFull)) "titulo_portada" =
      dGet (applyMapping exObjFull) "titulo_portada" := by
  constructor
  · exact (c4_fill_defaults []).2.1 "idea_video" (by decide) rfl
  · exact (c4_fill_defaults exObjFull).2.2 "titulo_portada" rfl

theorem applyMapping_unfold (j : Obj) :
    applyMapping j =
      applyOne "caption" "caption_video"
        (applyOne "gancho_inicial" "gancho_video"
          (applyOne "titulo" "titulo_portada" j)) := rfl

/-- C5: each alias of the fixed rename table is renamed to its canonical
field only when the alias is present and the canonical field absent,
carrying the same value and removing the alias key; a present canonical
field is never overwritten. -/
theorem c5_alias_rename (j : Obj) (hnd : (dKeys j).Nodup)
    (old new : String) (hmem : (old, new) ∈ field_mapping) :
    (dContains j old = true → dContains j new = false →
       dGet (applyMapping j) new = dGet j old ∧
       dContains (applyMapping j) old = false) ∧
    (dContains j new = true →
       dGet (applyMapping j) new = dGet j new) := by
  have hmem2 : (old = "titulo" ∧ new = "titulo_portada") ∨
      (old = "gancho_inicial" ∧ new = "gancho_video") ∨
      (old = "caption" ∧ new = "caption_video") := by
    simpa [field_mapping, Prod.ext_iff] using hmem
  rcases hmem2 with ⟨ho, hn⟩ | ⟨ho, hn⟩ | ⟨ho, hn⟩ <;> subst ho <;> subst hn
  · -- pair titulo
    constructor
    · intro ho hn
      have g1n := applyOne_fires_new "titulo" "titulo_portada" j ho hn
      have g1o := applyOne_fires_old "titulo" "titulo_portada" j hnd
        (by decide) ho hn
      have g2n := applyOne_get_other "gancho_inicial" "gancho_video"
        (applyOne "titulo" "titulo_portada" j) "titulo_portada"
        (by decide) (by decide)
      have g2o := applyOne_get_other "gancho_inicial" "gancho_video"
        (applyOne "titulo" "titulo_portada" j) "titulo"
        (by decide) (by decide)
      have g3n := applyOne_get_other "caption" "caption_video"
        (applyOne "gancho_inicial" "gancho_video"
          (applyOne "titulo" "titulo_portada" j)) "titulo_portada"
        (by decide) (by decide)
      have g3o := applyOne_get_other "caption" "caption_video"
        (applyOne "gancho_inicial" "gancho_video"
          (applyOne "titulo" "titulo_portada" j)) "titulo"
        (by decide) (by decide)
      rw [applyMapping_unfold]
      constructor
      · rw [g3n, g2n, g1n]
      · unfold dContains
        rw [g3o, g2o, g1o]
        rfl
    · intro hn
      have e1 := applyOne_newPresent "titulo" "titulo_portada" j hn
      have g2n := applyOne_get_other "gancho_inicial" "gancho_video" j
        "titulo_portada" (by decide) (by decide)
      have g3n := applyOne_get_other "caption" "caption_video"
        (applyOne "gancho_inicial" "gancho_video" j) "titulo_portada"
        (by decide) (by decide)
      rw [applyMapping_unfold, e1, g3n, g2n]
  · -- pair gancho_inicial
    have p1o := applyOne_get_other "titulo" "titulo_portada" j
      "gancho_inicial" (by decide) (by decide)
    have p1n := applyOne_get_other "titulo" "titulo_portada" j
      "gancho_video" (by decide) (by decide)
    have hnd1 := applyOne_nodup "titulo" "titulo_portada" j hnd
    constructor
    · intro ho hn
      have co : dContains (applyOne "titulo" "titulo_portada" j)
          "gancho_inicial" = true := by
        rw [dGet_eq_dContains_eq _ j _ p1o]
        exact ho
      have cn : dContains (applyOne "titulo" "titulo_portada" j)
          "gancho_video" = false := by
        rw [dGet_eq_dContains_eq _ j _ p1n]
        exact hn
      have g2n := applyOne_fires_new "gancho_inicial" "gancho_video"
        (applyOne "titulo" "titulo_portada" j) co cn
      have g2o := applyOne_fires_old "gancho_inicial" "gancho_video"
        (applyOne "titulo" "titulo_portada" j) hnd1 (by decide) co cn
      have g3n := applyOne_get_other "caption" "caption_video"
        (applyOne "gancho_inicial" "gancho_video"
          (applyOne "titulo" "titulo_portada" j)) "gancho_video"
        (by decide) (by decide)
      have g3o := applyOne_get_other "caption" "caption_video"
        (applyOne "gancho_inicial" "gancho_video"
          (applyOne "titulo" "titulo_portada" j)) "gancho_inicial"
        (by decide) (by decide)
      rw [applyMapping_unfold]
      constructor
      · rw [g3n, g2n, p1o]
      · unfold dContains
        rw [g3o, g2o]
        rfl
    · intro hn
      have cn : dContains (applyOne "titulo" "titulo_portada" j)
          "gancho_video" = true := by
        rw [dGet_eq_dContains_eq _ j _ p1n]
        exact hn
      have e2 := applyOne_newPresent "gancho_inicial" "gancho_video"
        (applyOne "titulo" "titulo_portada" j) cn
      have g3n := applyOne_get_other "caption" "caption_video"
        (applyOne "titulo" "titulo_portada" j) "gancho_video"
        (by decide) (by decide)
      rw [applyMapping_unfold, e2, g3n, p1n]
  · -- pair caption
    have p1o := applyOne_get_other "titulo" "titulo_portada" j
      "caption" (by decide) (by decide)
    have p1n := applyOne_get_other "titulo" "titulo_portada" j
      "caption_video" (by decide) (by decide)
    have p2o := applyOne_get_other "gancho_inicial" "gancho_video"
      (applyOne "titulo" "titulo_portada" j) "caption"
      (by decide) (by decide)
    have p2n := applyOne_get_other "gancho_inicial" "gancho_video"
      (applyOne "titulo" "titulo_portada" j) "caption_video"
      (by decide) (by decide)
    have hnd2 := applyOne_nodup "gancho_inicial" "gancho_video"
      (applyOne "titulo" "titulo_portada" j)
      (applyOne_nodup "titulo" "titulo_portada" j hnd)
    constructor
    · intro ho hn
      have co : dContains (applyOne "gancho_inicial" "gancho_video"
          (applyOne "titulo" "titulo_portada" j)) "caption" = true := by
        rw [dGet_eq_dContains_eq _ j "caption" (p2o.trans p1o)]
        exact ho
      have cn : dContains (applyOne "gancho_inicial" "gancho_video"
          (applyOne "titulo" "titulo_portada" j)) "caption_video" = false := by
        rw [dGet_eq_dContains_eq _ j "caption_video" (p2n.trans p1n)]
        exact hn
      have g3n := applyOne_fires_new "caption" "caption_video"
        (applyOne "gancho_inicial" "gancho_video"
          (applyOne "titulo" "titulo_portada" j)) co cn
      have g3o := applyOne_fires_old "caption" "caption_video"
        (applyOne "gancho_inicial" "gancho_video"
          (applyOne "titulo" "titulo_portada" j)) hnd2 (by decide) co cn
      rw [applyMapping_unfold]
      constructor
      · rw [g3n, p2o, p1o]
      · unfold dContains
        rw [g3o]
        rfl
    · intro hn
      have cn : dContains (applyOne "gancho_inicial" "gancho_video"
          (applyOne "titulo" "titulo_portada" j)) "caption_video" = true := by
        rw [dGet_eq_dContains_eq _ j "caption_video" (p2n.trans p1n)]
        exact hn
      have e3 := applyOne_newPresent "caption" "caption_video"
        (applyOne "gancho_inicial" "gancho_video"
          (applyOne "titulo" "titulo_portada" j)) cn
      rw [applyMapping_unfold, e3, p2n, p1n]

/-- Witness for C5 on an object that uses the titulo alias: applyMapping
moves the value to titulo_portada and removes the alias key. -/
theorem c5_witness :
    dGet (applyMapping exObjAlias) "titulo_portada" = some (JVal.str "T") ∧
    dContains (applyMapping exObjAlias) "titulo" = false := by
  have h := (c5_alias_rename exObjAlias (by decide) "titulo" "titulo_portada"
    (by decide)).1 rfl rfl
  exact ⟨h.1.trans rfl, h.2⟩

/-- C6: when hashtags is absent, inference takes exactly the caption
tokens that start with the hash character when there is at least one,
and the fixed default set when the caption has none or the caption field
is absent. -/
theorem c6_hashtag_inference (j : Obj) (hh : dContains j "hashtags" = false) :
    (∀ c, dGet j "caption_video" = some (JVal.str c) → hashTokens c ≠ [] →
       inferHashtags j =
         Except.ok (dSet j "hashtags" (JVal.arr ((hashTokens c).map JVal.str)))) ∧
    (∀ c, dGet j "caption_video" = some (JVal.str c) → hashTokens c = [] →
       inferHashtags j = Except.ok (dSet j "hashtags" defaultHashtagsJ)) ∧
    (dContains j "caption_video" = false →
       inferHashtags j = Except.ok (dSet j "hashtags" defaultHashtagsJ)) := by
  have hget : dGet j "hashtags" = none := dContains_false_dGet_none j _ hh
  refine ⟨?_, ?_, ?_⟩
  · intro c hc hne
    cases hts : hashTokens c with
    | nil => exact absurd hts hne
    | cons a as =>
      simp [inferHashtags, hget, hc, hts]
  · intro c hc hts
    simp [inferHashtags, hget, hc, hts]
  · intro hcap
    have hcget : dGet j "caption_video" = none :=
      dContains_false_dGet_none j _ hcap
    simp [inferHashtags, hget, hcget]

/-- Witness for C6 on a caption carrying two hash tokens. -/
theorem c6_witness :
    inferHashtags exObjCapTags =
      Except.ok
        [("caption_video", JVal.str "hola #a #b"),
         ("hashtags", JVal.arr [JVal.str "#a", JVal.str "#b"])] := by
  have h := (c6_hashtag_inference exObjCapTags rfl).1 "hola #a #b" rfl
    (by decide)
  rw [h]
  rfl

/-- C7 counterexample: a well-formed JSON object in which every required
field is present (hashtags, an optional field, absent) validates directly
to a result with empty hashtags, while repair followed by validation
returns a result whose hashtags is the 3-element default set: the
pipeline output is not equal to the parsed object. -/
theorem c7_cex :
    extractSpan exRawNoHash = some exRawNoHash ∧
    exParseNoHash exRawNoHash = Except.ok exObjNoHash ∧
    required_fields.all (fun f => dContains exObjNoHash f) = true ∧
    validateVA exObjNoHash = Except.ok exVANoHash ∧
    processAttempt exParseNoHash (AttemptResult.text exRawNoHash) =
      AttemptOutcome.ok exVANoHashRepaired ∧
    exVANoHashRepaired.hashtags = some default_hashtags ∧
    exVANoHash.hashtags = some [] ∧
    default_hashtags.length = 3 :=
  ⟨rfl, rfl, rfl, rfl, rfl, rfl, rfl, rfl⟩

/-- C7 as amended: for raw text whose extracted span parses to an object
that has every required field and also hashtags, and which validates,
repair is the identity and the pipeline returns exactly the validation of
the parsed object (round-trip fidelity). -/
theorem c7_roundtrip (parse : String → Except String Obj) (raw js : String)
    (j : Obj) (r : VideoAnalysis)
    (hspan : extractSpan raw = some js)
    (hparse : parse js = Except.ok j)
    (hreq : ∀ f, f ∈ required_fields → dContains j f = true)
    (hhash : dContains j "hashtags" = true)
    (hval : validateVA j = Except.ok r) :
    repairObj j = Except.ok j ∧
    processAttempt parse (AttemptResult.text raw) = AttemptOutcome.ok r := by
  have e1 : applyOne "titulo" "titulo_portada" j = j :=
    applyOne_newPresent _ _ j (hreq "titulo_portada" (by decide))
  have e2 : applyOne "gancho_inicial" "gancho_video" j = j :=
    applyOne_newPresent _ _ j (hreq "gancho_video" (by decide))
  have e3 : applyOne "caption" "caption_video" j = j :=
    applyOne_newPresent _ _ j (hreq "caption_video" (by decide))
  have hAM : applyMapping j = j := by
    rw [applyMapping_unfold, e1, e2, e3]
  have hFM : fillMissing j = j := by
    unfold fillMissing
    have hfil : required_fields.filter (fun f => !(dContains j f)) = [] := by
      rw [List.filter_eq_nil_iff]
      intro f hf
      simp [hreq f hf]
    rw [hfil]
    rfl
  have hIH : inferHashtags j = Except.ok j := by
    rcases Option.isSome_iff_exists.mp (by simpa [dContains] using hhash)
      with ⟨v, hv⟩
    simp [inferHashtags, hv]
  have hRO : repairObj j = Except.ok j := by
    unfold repairObj
    rw [hAM, hFM, hIH]
  refine ⟨hRO, ?_⟩
  have hrep : repair parse raw = RepairResult.ok j := by
    unfold repair
    rw [hspan]
    simp [hparse, hRO]
  simp [processAttempt, hrep, hval]

/-- Witness for C7 on the fully populated document. -/
theorem c7_witness :
    processAttempt exParseFull (AttemptResult.text exRawFull) =
      AttemptOutcome.ok exVAFull := by
  have h := c7_roundtrip exParseFull exRawFull exRawFull exObjFull exVAFull
    rfl rfl (fun f hf => by
      have : required_fields.all (fun f2 => dContains exObjFull f2) = true := rfl
      exact List.all_eq_true.mp this f hf) rfl rfl
  exact h.2

/-- C8 counterexample: a syntactically valid JSON object whose
caption_video is a number (and hashtags absent) makes the repair stage
raise an AttributeError that escapes it, instead of degrading via
defaults or failing with one of the two explicit kinds. -/
theorem c8_cex :
    extractSpan exRawBadCaption = some exRawBadCaption ∧
    exParseBadCaption exRawBadCaption = Except.ok exObjBadCaption ∧
    repair exParseBadCaption exRawBadCaption =
      RepairResult.raised "AttributeError: int object has no attribute split" :=
  ⟨rfl, rfl, rfl⟩

/-- C8 as amended: the repair stage does not raise, provided any parsed
object reaches hashtag inference with hashtags present, caption_video
absent, or caption_video a string; its only failures are then the two
explicit kinds NoJsonFound and JsonParseError. -/
theorem c8_repair_no_throw (parse : String → Except String Obj)
    (raw : String)
    (h : ∀ js j, extractSpan raw = some js → parse js = Except.ok j →
       captionGuard (fillMissing (applyMapping j)) = true) :
    notRaised (repair parse raw) = true := by
  unfold repair
  cases hs : extractSpan raw with
  | none => rfl
  | some js =>
    cases hp : parse js with
    | error m => simp [hp, notRaised]
    | ok j =>
      rcases inferHashtags_ok_of_guard (fillMissing (applyMapping j))
        (h js j hs hp) with ⟨j2, hj2⟩
      simp [hp, repairObj, hj2, notRaised]

/-- Witness for C8 on the fully populated document. -/
theorem c8_witness : notRaised (repair exParseFull exRawFull) = true := by
  apply c8_repair_no_throw
  intro js j hs hp
  have hs2 : (some exRawFull : Option String) = some js := by
    rw [show (some exRawFull : Option String) = extractSpan exRawFull from rfl]
    exact hs
  injection hs2 with hjs
  subst hjs
  have hp2 : (Except.ok exObjFull : Except String Obj) = Except.ok j := by
    rw [show (Except.ok exObjFull : Except String Obj) =
      exParseFull exRawFull from rfl]
    exact hp
  injection hp2 with hj
  subst hj
  rfl

/-- C9: a dialogue entry that is not a 2-element pair of strings (in
particular a 3-element list) makes validation fail, while 2-element
entries with string components are accepted. -/
theorem c9_dialog_arity (j d : Obj) (xs : List JVal) (e : JVal)
    (hj : dGet j "dialogo" = some (JVal.obj d))
    (hd : dGet d "dialogo" = some (JVal.arr xs))
    (he : e ∈ xs) (hbad : isPairOk e = false) :
    isOkE (validateVA j) = false ∧
    (∀ a b, vPair (JVal.arr [JVal.str a, JVal.str b]) = Except.ok (a, b)) :=
  ⟨validateVA_not_ok_of_dialog j (JVal.obj d) hj
     (vDialog_not_ok d xs e hd he hbad),
   fun _ _ => rfl⟩

/-- Witness for C9 on a 3-element dialogue entry. -/
theorem c9_witness :
    isOkE (validateVA exObjBadDialog) = false ∧
    vPair (JVal.arr [JVal.str "a", JVal.str "b"]) = Except.ok ("a", "b") := by
  have h := c9_dialog_arity exObjBadDialog
    [("hay_dialogo", JVal.bool true),
     ("dialogo", JVal.arr [JVal.arr [JVal.str "a", JVal.str "b", JVal.str "c"]])]
    [JVal.arr [JVal.str "a", JVal.str "b", JVal.str "c"]]
    (JVal.arr [JVal.str "a", JVal.str "b", JVal.str "c"])
    rfl rfl (List.mem_singleton.mpr rfl) rfl
  exact ⟨h.1, h.2 "a" "b"⟩

/-- C10: the required-field sweep never assigns hashtags, because
hashtags is not in the required_fields list; the sweep leaves the
hashtags value untouched and every field it does fill receives the
string placeholder. -/
theorem c10_sweep_never_hashtags :
    required_fields.contains "hashtags" = false ∧
    (∀ j : Obj, dGet (fillMissing j) "hashtags" = dGet j "hashtags") ∧
    (∀ (j : Obj) (f : String), dContains j f = false →
       dContains (fillMissing j) f = true →
       f ∈ required_fields ∧
       dGet (fillMissing j) f = some (JVal.str "No especificado")) := by
  refine ⟨rfl, ?_, ?_⟩
  · intro j
    rw [fillMissing_get]
    rw [if_neg (fun hx => absurd hx.1 (by decide))]
  · intro j f hab hcont
    by_cases hm : f ∈ required_fields
    · refine ⟨hm, ?_⟩
      rw [fillMissing_get, if_pos ⟨hm, hab⟩]
      have hne : ¬ f = "hashtags" := by
        intro hx
        subst hx
        exact absurd hm (by decide)
      simp [fillVal, hne]
    · exfalso
      have hg := fillMissing_get j f
      rw [if_neg (fun hx => absurd hx.1 hm)] at hg
      unfold dContains at hcont
      rw [hg] at hcont
      have : dContains j f = true := hcont
      rw [this] at hab
      cases hab

/-- Witness for C10: the sweep fills idea_video of the empty object with
the placeholder and leaves hashtags absent. -/
theorem c10_witness :
    dGet (fillMissing ([] : Obj)) "idea_video" =
      some (JVal.str "No especificado") ∧
    dGet (fillMissing ([] : Obj)) "hashtags" = none := by
  have h := c10_sweep_never_hashtags
  refine ⟨(h.2.2 [] "idea_video" rfl rfl).2, ?_⟩
  rw [h.2.1 []]
  rfl

/-- C1: evaluation of the retry loop at the retry scenario of the
specification (quota failures on attempts 0 and 1, success on attempt 2,
max_retries 3).  The run sleeps 5 seconds once, makes exactly one remote
call, and exits through the handler at line 277 with None, because the
finally block cleared video_base64 before the second iteration; it never
reaches the successful attempt, never sleeps 10 seconds, and returns no
result. -/
theorem c1_retry_bug :
    analyze_video quotaThenOkCall exParseFull 3 =
      ⟨Outcome.preparationError, [5], 1⟩ ∧
    (analyze_video quotaThenOkCall exParseFull 3).sleeps = [5] ∧
    (analyze_video quotaThenOkCall exParseFull 3).calls = 1 ∧
    processAttempt exParseFull (quotaThenOkCall 2) = AttemptOutcome.ok exVAFull :=
  ⟨rfl, rfl, rfl, rfl⟩

example : validateVA exObjFull = Except.ok exVAFull := rfl

example : repair exParseFull exRawFull = RepairResult.ok exObjFull := rfl

example : analyze_video quotaThenOkCall exParseFull 3 =
    ⟨Outcome.preparationError, [5], 1⟩ := rfl

example : analyze_video tooLargeCall exParseFull 3 =
    ⟨Outcome.payloadTooLarge, [], 1⟩ := rfl

example : validateVA exObjNoHash = Except.ok exVANoHash := rfl

example : processAttempt exParseNoHash (AttemptResult.text exRawNoHash) =
    AttemptOutcome.ok exVANoHashRepaired := rfl

example : repair exParseBadCaption exRawBadCaption =
    RepairResult.raised "AttributeError: int object has no attribute split" := rfl

example : isOkE (validateVA exObjBadDialog) = false := rfl

example : repair errParse exRawNoBraces =
    RepairResult.noJsonFound "sin llaves aqui" := rfl

example : repair errParse exRawBadJson =
    RepairResult.jsonParseError exRawBadJson := rfl

example : applyMapping exObjAlias =
    [("caption_video", JVal.str "c"), ("titulo_portada", JVal.str "T")] := rfl

example : inferHashtags exObjCapTags =
    Except.ok
      [("caption_video", JVal.str "hola #a #b"),
       ("hashtags", JVal.arr [JVal.str "#a", JVal.str "#b"])] := rfl

example : repair exParseEmptyDesc exRawEmptyDesc =
    RepairResult.ok exObjEmptyDesc := rfl

end AutoBriefing
